import Mathlib

/-!
Verification of the recipe-management core: the in-memory recipe store
(`lib/data.ts`), the query filter (`recipeStorage.search`), and the local
rule-based suggestion engine (`generateSmartSuggestions` in
`app/api/ai/recipe-suggestions/route.ts`).

JavaScript string primitives (`toLowerCase`, `split`, `trim`, `includes`)
are embedded as executable functions over character lists so that all
definitions evaluate by kernel reduction.  Timestamps (`Date`) are modelled
as natural numbers; `Date` values are always truthy in JavaScript, which is
reflected where `||` fallbacks touch them.
-/

/-- JavaScript `s.toLowerCase()` (ASCII case folding, as used by the code). -/
def lowerStr (s : String) : String := String.mk (s.toList.map Char.toLower)

/-- Split a character list at every occurrence of `sep`, keeping empty
segments, exactly like JavaScript `String.prototype.split` with a
one-character separator. -/
def splitChar (sep : Char) : List Char → List (List Char)
  | [] => [[]]
  | c :: cs =>
    let r := splitChar sep cs
    if c == sep then [] :: r
    else
      match r with
      | [] => [[c]]
      | h :: t => (c :: h) :: t

/-- JavaScript `s.split(sep)` for a one-character separator. -/
def splitStr (sep : Char) (s : String) : List String :=
  (splitChar sep s.toList).map String.mk

/-- JavaScript `s.trim()`: strip leading and trailing whitespace. -/
def trimStr (s : String) : String :=
  String.mk (((s.toList.dropWhile Char.isWhitespace).reverse.dropWhile
    Char.isWhitespace).reverse)

/-- Helper for substring search: does `needle` occur inside the list? -/
def infixOfB (needle : List Char) : List Char → Bool
  | [] => needle.isEmpty
  | c :: cs => needle.isPrefixOf (c :: cs) || infixOfB needle cs

/-- JavaScript `hay.includes(needle)`. -/
def strIncludes (hay needle : String) : Bool := infixOfB needle.toList hay.toList

/-- JavaScript `s.split(sep).map(i => i.trim()).filter(i => i.length > 0)`,
the parsing step used for the comma-delimited ingredient and tag fields and
the newline-delimited instruction field in `convertFormDataToRecipe`. -/
def splitTrimNonEmpty (sep : Char) (s : String) : List String :=
  ((splitStr sep s).map trimStr).filter (fun i => 0 < i.length)

/-- Cooking difficulty level from `lib/types.ts`. -/
inductive Difficulty where
  | Easy
  | Medium
  | Hard
deriving DecidableEq

/-- Recipe status from `lib/types.ts`: `'favorite' | 'to-try' | 'made'`. -/
inductive RecipeStatus where
  | favorite
  | toTry
  | made
deriving DecidableEq

/-- `RecipeMetadata` from `lib/types.ts`. -/
structure RecipeMetadata where
  cuisineType : String
  preparationTime : Nat
  servings : Nat
  difficulty : Difficulty
  tags : List String
deriving DecidableEq

/-- `Recipe` from `lib/types.ts`; `Date` timestamps are modelled as `Nat`. -/
structure Recipe where
  id : String
  name : String
  ingredients : List String
  instructions : List String
  metadata : RecipeMetadata
  status : RecipeStatus
  createdAt : Nat
  updatedAt : Nat
deriving DecidableEq

/-- `RecipeFormData` from `lib/types.ts`: the raw delimited form input. -/
structure RecipeFormData where
  name : String
  ingredients : String
  instructions : String
  cuisineType : String
  preparationTime : Nat
  servings : Nat
  difficulty : Difficulty
  tags : String
deriving DecidableEq

/-- `SearchFilters` from `lib/types.ts`.  `query` is a required string; the
other criteria are optional. -/
structure SearchFilters where
  query : String
  cuisineType : Option String
  status : Option RecipeStatus
  maxPrepTime : Option Nat
deriving DecidableEq

/-- `convertFormDataToRecipe` from `lib/data.ts`.  The nondeterministic
`generateId()` result and the current clock reading `new Date()` are passed
in as the explicit parameters `freshId` and `now`; `recipes` is the store
contents consulted for the original `createdAt` on update.  JavaScript
truthiness of the optional `id` argument (`id || generateId()` and the
`id ? ... : now` conditional) is modelled explicitly: an absent or empty
`id` is falsy. -/
def convertFormDataToRecipe (recipes : List Recipe) (formData : RecipeFormData)
    (idOpt : Option String) (freshId : String) (now : Nat) : Recipe :=
  let idTruthy : Bool := match idOpt with
    | some i => !(i == "")
    | none => false
  let idVal : String := if idTruthy then idOpt.getD freshId else freshId
  let createdAtVal : Nat :=
    if idTruthy then
      match (recipes.find? (fun r => r.id == idOpt.getD "")).map Recipe.createdAt with
      | some t => t
      | none => now
    else now
  { id := idVal
    name := trimStr formData.name
    ingredients := splitTrimNonEmpty ',' formData.ingredients
    instructions := splitTrimNonEmpty '\n' formData.instructions
    metadata :=
      { cuisineType := trimStr formData.cuisineType
        preparationTime := formData.preparationTime
        servings := formData.servings
        difficulty := formData.difficulty
        tags := splitTrimNonEmpty ',' formData.tags }
    status := RecipeStatus.toTry
    createdAt := createdAtVal
    updatedAt := now }

/-- `recipeStorage.create` from `lib/data.ts`: convert the form data and
push the new recipe onto the store; returns the new record and the new
store contents. -/
def createFn (recipes : List Recipe) (fd : RecipeFormData) (freshId : String)
    (now : Nat) : Recipe × List Recipe :=
  let r := convertFormDataToRecipe recipes fd none freshId now
  (r, recipes ++ [r])

/-- `recipeStorage.update` from `lib/data.ts`: `findIndex` on the id, `null`
(here `none`) when absent, otherwise re-convert the form data and replace
the record at its position. -/
def updateFn (recipes : List Recipe) (id : String) (fd : RecipeFormData)
    (freshId : String) (now : Nat) : Option Recipe × List Recipe :=
  match recipes.findIdx? (fun r => r.id == id) with
  | none => (none, recipes)
  | some idx =>
    let r := convertFormDataToRecipe recipes fd (some id) freshId now
    (some r, recipes.set idx r)

/-- `recipeStorage.delete` from `lib/data.ts`: `findIndex` then
`splice(index, 1)`; returns `false` and the unchanged store when the id is
absent. -/
def deleteFn (recipes : List Recipe) (id : String) : Bool × List Recipe :=
  match recipes.findIdx? (fun r => r.id == id) with
  | none => (false, recipes)
  | some idx => (true, recipes.eraseIdx idx)

/-- `recipeStorage.updateStatus` from `lib/data.ts`: find the first record
with the id and overwrite only its `status` and `updatedAt`; `null` (here
`none`) when absent.  The in-place object mutation of the source is
rendered as replacing the record at its (first-match) position. -/
def updateStatusFn (recipes : List Recipe) (id : String) (st : RecipeStatus)
    (now : Nat) : Option Recipe × List Recipe :=
  match recipes.findIdx? (fun r => r.id == id) with
  | none => (none, recipes)
  | some idx =>
    match recipes[idx]? with
    | none => (none, recipes)
    | some r0 =>
      let r := { r0 with status := st, updatedAt := now }
      (some r, recipes.set idx r)

/-- The query-text criterion of `recipeStorage.search`: case-insensitive
substring match against the name, any ingredient, any tag, or the cuisine
type. -/
def queryPred (q : String) (r : Recipe) : Bool :=
  let ql := lowerStr q
  strIncludes (lowerStr r.name) ql ||
  r.ingredients.any (fun i => strIncludes (lowerStr i) ql) ||
  r.metadata.tags.any (fun t => strIncludes (lowerStr t) ql) ||
  strIncludes (lowerStr r.metadata.cuisineType) ql

/-- The cuisine criterion: case-insensitive exact match. -/
def cuisinePred (c : String) (r : Recipe) : Bool :=
  lowerStr r.metadata.cuisineType == lowerStr c

/-- The status criterion: exact match. -/
def statusPred (st : RecipeStatus) (r : Recipe) : Bool := r.status == st

/-- The preparation-time criterion: `preparationTime <= maxPrepTime`. -/
def maxPrepPred (t : Nat) (r : Recipe) : Bool :=
  decide (r.metadata.preparationTime ≤ t)

/-- JavaScript truthiness of `filters.query` (a string: truthy iff
non-empty). -/
def providedQuery (f : SearchFilters) : Bool := !(f.query == "")

/-- JavaScript truthiness of `filters.cuisineType` (absent or empty string
is falsy). -/
def providedCuisine (f : SearchFilters) : Bool :=
  match f.cuisineType with
  | some c => !(c == "")
  | none => false

/-- JavaScript truthiness of `filters.status` (the status enum strings are
never empty, so present means truthy). -/
def providedStatus (f : SearchFilters) : Bool := f.status.isSome

/-- JavaScript truthiness of `filters.maxPrepTime` (absent, and the number
0, are falsy). -/
def providedMaxPrep (f : SearchFilters) : Bool :=
  match f.maxPrepTime with
  | some t => !(t == 0)
  | none => false

/-- `recipeStorage.search` from `lib/data.ts`: start from a copy of the
store and apply each truthy criterion as a narrowing `filter`, in source
order (query, cuisine, status, max preparation time). -/
def searchFn (recipes : List Recipe) (f : SearchFilters) : List Recipe :=
  let l1 := if providedQuery f then recipes.filter (queryPred f.query) else recipes
  let l2 := if providedCuisine f then l1.filter (cuisinePred (f.cuisineType.getD "")) else l1
  let l3 := if providedStatus f then l2.filter (statusPred (f.status.getD RecipeStatus.toTry)) else l2
  if providedMaxPrep f then l3.filter (maxPrepPred (f.maxPrepTime.getD 0)) else l3

/-- `SuggestedRecipe` from `app/api/ai/recipe-suggestions/route.ts`. -/
structure SuggestedRecipe where
  name : String
  description : String
  ingredients : List String
  instructions : List String
  cuisineType : String
  preparationTime : Nat
  servings : Nat
  difficulty : Difficulty
  tags : List String
deriving DecidableEq

/-- Chicken-triggered template from `generateSmartSuggestions`. -/
def garlicHerbChickenSkillet : SuggestedRecipe :=
  { name := "Garlic Herb Chicken Skillet"
    description := "A flavorful one-pan chicken dish with herbs and your available vegetables"
    ingredients :=
      ["2 chicken breasts, sliced",
       "garlic cloves, minced",
       "mixed herbs (thyme, rosemary)",
       "vegetables from your list",
       "olive oil",
       "salt and pepper",
       "lemon juice"]
    instructions :=
      ["Season chicken with salt, pepper, and herbs",
       "Heat olive oil in a large skillet over medium-high heat",
       "Cook chicken until golden brown, about 6-7 minutes per side",
       "Add garlic and cook for 1 minute until fragrant",
       "Add your vegetables and cook until tender",
       "Finish with lemon juice and fresh herbs",
       "Serve hot with rice or potatoes"]
    cuisineType := "Mediterranean"
    preparationTime := 25
    servings := 4
    difficulty := Difficulty.Easy
    tags := ["protein-rich", "one-pan", "healthy", "quick"] }

/-- Pasta-triggered template from `generateSmartSuggestions`. -/
def freshGardenPasta : SuggestedRecipe :=
  { name := "Fresh Garden Pasta"
    description := "Light and fresh pasta featuring your available ingredients"
    ingredients :=
      ["pasta of choice (8 oz)",
       "olive oil",
       "garlic, minced",
       "fresh vegetables from your list",
       "parmesan cheese, grated",
       "fresh basil or herbs",
       "salt and pepper"]
    instructions :=
      ["Cook pasta according to package directions until al dente",
       "Reserve 1 cup pasta water before draining",
       "Heat olive oil in a large pan over medium heat",
       "Sauté garlic until fragrant, about 1 minute",
       "Add your vegetables, cooking until just tender",
       "Toss in cooked pasta with a splash of pasta water",
       "Add parmesan cheese and fresh herbs",
       "Season with salt and pepper to taste"]
    cuisineType := "Italian"
    preparationTime := 20
    servings := 4
    difficulty := Difficulty.Easy
    tags := ["pasta", "vegetarian", "fresh", "quick"] }

/-- Rice-triggered template from `generateSmartSuggestions`. -/
def savoryRicePilaf : SuggestedRecipe :=
  { name := "Savory Rice Pilaf"
    description := "A hearty rice dish incorporating your available ingredients"
    ingredients :=
      ["1 cup long-grain rice",
       "2 cups chicken or vegetable broth",
       "onion, diced",
       "your protein and vegetables",
       "garlic, minced",
       "herbs and spices",
       "butter or oil"]
    instructions :=
      ["Heat butter in a large saucepan over medium heat",
       "Add rice and toast for 2-3 minutes until fragrant",
       "Add onion and garlic, cook until softened",
       "Pour in broth and bring to a boil",
       "Add your protein and harder vegetables",
       "Reduce heat, cover, and simmer for 18-20 minutes",
       "Add softer vegetables in the last 5 minutes",
       "Let stand 5 minutes, then fluff with a fork"]
    cuisineType := "Mediterranean"
    preparationTime := 35
    servings := 6
    difficulty := Difficulty.Medium
    tags := ["rice", "one-pot", "filling", "comfort-food"] }

/-- Vegetable-triggered template from `generateSmartSuggestions`. -/
def mediterraneanVegetableMedley : SuggestedRecipe :=
  { name := "Mediterranean Vegetable Medley"
    description := "A colorful and nutritious vegetable dish bursting with Mediterranean flavors"
    ingredients :=
      ["mixed vegetables from your list",
       "olive oil",
       "garlic, minced",
       "onion, sliced",
       "canned diced tomatoes",
       "herbs (oregano, basil, thyme)",
       "feta cheese (optional)",
       "salt and pepper"]
    instructions :=
      ["Heat olive oil in a large skillet or dutch oven",
       "Sauté onion until softened, about 5 minutes",
       "Add garlic and cook for 1 minute",
       "Add harder vegetables first, cook for 5-7 minutes",
       "Add tomatoes and herbs, season with salt and pepper",
       "Simmer for 15-20 minutes until vegetables are tender",
       "Add softer vegetables in the last 5 minutes",
       "Serve hot, optionally topped with feta cheese"]
    cuisineType := "Mediterranean"
    preparationTime := 30
    servings := 4
    difficulty := Difficulty.Easy
    tags := ["vegetarian", "healthy", "mediterranean", "colorful"] }

/-- Egg-triggered template from `generateSmartSuggestions`. -/
def rusticVegetableFrittata : SuggestedRecipe :=
  { name := "Rustic Vegetable Frittata"
    description := "A protein-packed frittata featuring your fresh ingredients"
    ingredients :=
      ["8 large eggs",
       "vegetables from your list, chopped",
       "cheese (optional)",
       "olive oil or butter",
       "onion, diced",
       "herbs (parsley, chives)",
       "salt and pepper"]
    instructions :=
      ["Preheat oven to 375°F (190°C)",
       "Heat oil in an oven-safe skillet over medium heat",
       "Sauté onion and harder vegetables until softened",
       "Beat eggs with salt, pepper, and herbs",
       "Pour eggs over vegetables in the skillet",
       "Cook for 3-4 minutes until edges start to set",
       "Sprinkle with cheese if using",
       "Transfer to oven and bake for 12-15 minutes until set",
       "Let cool slightly before slicing and serving"]
    cuisineType := "Italian"
    preparationTime := 25
    servings := 6
    difficulty := Difficulty.Easy
    tags := ["eggs", "protein-rich", "brunch", "versatile"] }

/-- The detection phase of `generateSmartSuggestions`: lower-case the raw
ingredient text, split on commas, trim each entry, and collect every
template whose trigger predicate fires, in source order. -/
def smartTriggered (ingredients : String) : List SuggestedRecipe :=
  let ingredientList := (splitStr ',' (lowerStr ingredients)).map trimStr
  (if ingredientList.any (fun i => strIncludes i "chicken")
    then [garlicHerbChickenSkillet] else []) ++
  (if ingredientList.any (fun i =>
      strIncludes i "pasta" || strIncludes i "spaghetti" || strIncludes i "noodle")
    then [freshGardenPasta] else []) ++
  (if ingredientList.any (fun i => strIncludes i "rice")
    then [savoryRicePilaf] else []) ++
  (if ingredientList.any (fun i =>
      ["tomato", "onion", "carrot", "bell pepper", "zucchini", "mushroom"].any
        (fun veg => strIncludes i veg))
    then [mediterraneanVegetableMedley] else []) ++
  (if ingredientList.any (fun i => strIncludes i "egg")
    then [rusticVegetableFrittata] else [])

/-- The vegetarian post-filter predicate of `generateSmartSuggestions`:
tagged vegetarian, or no ingredient line containing chicken, meat, or
fish. -/
def vegFriendly (s : SuggestedRecipe) : Bool :=
  s.tags.contains "vegetarian" ||
  !(s.ingredients.any (fun ing =>
      strIncludes (lowerStr ing) "chicken" ||
      strIncludes (lowerStr ing) "meat" ||
      strIncludes (lowerStr ing) "fish"))

/-- The collection-plus-preference-filter phase of
`generateSmartSuggestions`: the triggered candidates narrowed by the
vegetarian, quick, and easy preference filters, before truncation. -/
def smartFiltered (ingredients preferences : String) : List SuggestedRecipe :=
  let prefs := lowerStr preferences
  let suggestions := smartTriggered ingredients
  let f1 := if strIncludes prefs "vegetarian"
    then suggestions.filter vegFriendly else suggestions
  let f2 := if strIncludes prefs "quick" || strIncludes prefs "30 min" || strIncludes prefs "fast"
    then f1.filter (fun s => decide (s.preparationTime ≤ 30)) else f1
  if strIncludes prefs "easy"
    then f2.filter (fun s => s.difficulty == Difficulty.Easy) else f2

/-- `generateSmartSuggestions` from `app/api/ai/recipe-suggestions/route.ts`:
the filtered candidates truncated by
`slice(0, Math.min(4, Math.max(2, length)))`. -/
def generateSmartSuggestions (ingredients preferences : String) : List SuggestedRecipe :=
  let fs := smartFiltered ingredients preferences
  fs.take (min 4 (max 2 fs.length))

/-- Heap-and-references model of the module-level `recipes` array, used to
reason about aliasing: `heap` holds the recipe objects, `arr` holds the
references (heap indices) making up the store array.  `getAll` returns
`[...recipes]`, a copy of the reference array that still shares the
objects. -/
structure HeapStore where
  heap : List Recipe
  arr : List Nat
deriving DecidableEq

/-- Dereference a snapshot of the store array against a heap: the record
values a caller observes through an array of references. -/
def derefView (heap : List Recipe) (snap : List Nat) : List (Option Recipe) :=
  snap.map (fun a => heap[a]?)

/-- `recipeStorage.getAll` in the heap model: a shallow copy of the array
(the references are copied; the objects are shared). -/
def getAllH (s : HeapStore) : List Nat := s.arr

/-- The recipe values currently in the store, in array order. -/
def recordsOf (s : HeapStore) : List Recipe :=
  s.arr.filterMap (fun a => s.heap[a]?)

/-- Reference-level predicate for `r.id === id` at address `a`. -/
def idAtRef (heap : List Recipe) (id : String) (a : Nat) : Bool :=
  match heap[a]? with
  | some r => r.id == id
  | none => false

/-- `recipeStorage.create` in the heap model: allocate the new record and
push its reference. -/
def createH (s : HeapStore) (fd : RecipeFormData) (freshId : String)
    (now : Nat) : HeapStore :=
  let r := convertFormDataToRecipe (recordsOf s) fd none freshId now
  { heap := s.heap ++ [r], arr := s.arr ++ [s.heap.length] }

/-- `recipeStorage.update` in the heap model: allocate a fresh record object
and overwrite the reference at the found position; the old object is left
intact on the heap. -/
def updateH (s : HeapStore) (id : String) (fd : RecipeFormData)
    (freshId : String) (now : Nat) : HeapStore :=
  match s.arr.findIdx? (idAtRef s.heap id) with
  | none => s
  | some idx =>
    let r := convertFormDataToRecipe (recordsOf s) fd (some id) freshId now
    { heap := s.heap ++ [r], arr := s.arr.set idx s.heap.length }

/-- `recipeStorage.delete` in the heap model: `splice` removes the
reference; the heap is untouched. -/
def deleteH (s : HeapStore) (id : String) : HeapStore :=
  match s.arr.findIdx? (idAtRef s.heap id) with
  | none => s
  | some idx => { heap := s.heap, arr := s.arr.eraseIdx idx }

/-- `recipeStorage.updateStatus` in the heap model: mutate the found recipe
object in place, i.e. overwrite the heap cell it occupies; the reference
array is unchanged. -/
def updateStatusH (s : HeapStore) (id : String) (st : RecipeStatus)
    (now : Nat) : HeapStore :=
  match s.arr.find? (idAtRef s.heap id) with
  | none => s
  | some a =>
    match s.heap[a]? with
    | none => s
    | some r0 =>
      { heap := s.heap.set a { r0 with status := st, updatedAt := now },
        arr := s.arr }

/-- Sample recipe 1 from the seed data in `lib/data.ts` (dates rendered as
numbers). -/
def sampleCarbonara : Recipe :=
  { id := "1"
    name := "Spaghetti Carbonara"
    ingredients := ["400g spaghetti", "200g pancetta", "4 eggs", "100g parmesan", "black pepper"]
    instructions :=
      ["Cook spaghetti in salted water until al dente",
       "Fry pancetta until crispy",
       "Beat eggs with parmesan and pepper",
       "Mix hot pasta with egg mixture off heat",
       "Add pancetta and serve immediately"]
    metadata :=
      { cuisineType := "Italian"
        preparationTime := 30
        servings := 4
        difficulty := Difficulty.Medium
        tags := ["pasta", "quick", "comfort-food"] }
    status := RecipeStatus.favorite
    createdAt := 20240115
    updatedAt := 20240115 }

/-- Sample recipe 2 from the seed data in `lib/data.ts`. -/
def sampleTeriyaki : Recipe :=
  { id := "2"
    name := "Chicken Teriyaki"
    ingredients :=
      ["2 chicken breasts", "3 tbsp soy sauce", "2 tbsp honey", "1 tbsp rice vinegar", "ginger", "garlic"]
    instructions :=
      ["Cut chicken into bite-sized pieces",
       "Make teriyaki sauce with soy sauce, honey, vinegar",
       "Cook chicken in pan until golden",
       "Add sauce and simmer until glazed",
       "Serve with rice and vegetables"]
    metadata :=
      { cuisineType := "Japanese"
        preparationTime := 25
        servings := 2
        difficulty := Difficulty.Easy
        tags := ["chicken", "asian", "healthy"] }
    status := RecipeStatus.made
    createdAt := 20240110
    updatedAt := 20240120 }

/-- Form input from the end-to-end example in the specification. -/
def tacosForm : RecipeFormData :=
  { name := "Tacos"
    ingredients := "beef, tortilla, cheese"
    instructions := "cook beef\nassemble"
    cuisineType := "Mexican"
    preparationTime := 20
    servings := 2
    difficulty := Difficulty.Easy
    tags := "quick" }

/-- The second filter specification provides every criterion the first
provides, with the same value (criteria are "provided" under JavaScript
truthiness, as the code tests them). -/
@[reducible] def providedSame (f1 f2 : SearchFilters) : Prop :=
  (providedQuery f1 = true → f2.query = f1.query)
  ∧ (providedCuisine f1 = true → f2.cuisineType = f1.cuisineType)
  ∧ (providedStatus f1 = true → f2.status = f1.status)
  ∧ (providedMaxPrep f1 = true → f2.maxPrepTime = f1.maxPrepTime)

/-- The second filter specification provides at least one criterion the
first does not. -/
@[reducible] def providesMore (f1 f2 : SearchFilters) : Prop :=
  (providedQuery f2 = true ∧ providedQuery f1 = false)
  ∨ (providedCuisine f2 = true ∧ providedCuisine f1 = false)
  ∨ (providedStatus f2 = true ∧ providedStatus f1 = false)
  ∨ (providedMaxPrep f2 = true ∧ providedMaxPrep f1 = false)

/-- Heap store holding the first sample recipe at address 0. -/
def heapSample : HeapStore := { heap := [sampleCarbonara], arr := [0] }

/-- A conditional filter stage is a sublist of its input. -/
theorem ifFilterSublist {α : Type} (l : List α) (b : Bool) (p : α → Bool) :
    List.Sublist (if b then l.filter p else l) l := by
  cases b
  · exact List.Sublist.refl l
  · simpa using List.filter_sublist l

/-- Monotonicity of one conditional filter stage: if the weaker side's
guard being on forces the stronger side's guard on with the same
predicate, sublists are preserved. -/
theorem ifFilterMono {α : Type} {la lb : List α} (g1 g2 : Bool) (p1 p2 : α → Bool)
    (h : List.Sublist la lb) (himp : g1 = true → g2 = true ∧ p2 = p1) :
    List.Sublist (if g2 then la.filter p2 else la) (if g1 then lb.filter p1 else lb) := by
  cases g1
  · exact (ifFilterSublist la g2 p2).trans h
  · obtain ⟨hg2, hp⟩ := himp rfl
    subst hg2
    subst hp
    exact h.filter p2

/-- A list whose members all falsify the predicate has no found index. -/
theorem findIdxNoneOfAll {α : Type} (l : List α) (p : α → Bool)
    (h : ∀ a ∈ l, p a = false) : l.findIdx? p = none := by
  rw [List.findIdx?_eq_none_iff]
  intro a ha
  simp [h a ha]

/-- Claim C1: for form input whose name, ingredients, and instructions are
non-empty after trimming, `create` returns a record with status `to-try`
and equal creation and update timestamps, whose ingredients and tags are
the comma-split trimmed non-empty entries and whose instructions are the
newline-split trimmed non-empty entries of the inputs, and appends that
record to the store. -/
theorem create_spec (recipes : List Recipe) (fd : RecipeFormData)
    (freshId : String) (now : Nat)
    (hname : trimStr fd.name ≠ "") (hing : trimStr fd.ingredients ≠ "")
    (hins : trimStr fd.instructions ≠ "") :
    (createFn recipes fd freshId now).1.status = RecipeStatus.toTry
    ∧ (createFn recipes fd freshId now).1.createdAt
        = (createFn recipes fd freshId now).1.updatedAt
    ∧ (createFn recipes fd freshId now).1.ingredients
        = splitTrimNonEmpty ',' fd.ingredients
    ∧ (createFn recipes fd freshId now).1.metadata.tags
        = splitTrimNonEmpty ',' fd.tags
    ∧ (createFn recipes fd freshId now).1.instructions
        = splitTrimNonEmpty '\n' fd.instructions
    ∧ (createFn recipes fd freshId now).2
        = recipes ++ [(createFn recipes fd freshId now).1] :=
  ⟨rfl, rfl, rfl, rfl, rfl, rfl⟩

/-- Claim C1 witness: the end-to-end taco example from the specification. -/
theorem create_spec_witness :
    (createFn [] tacosForm "id9" 7).1.status = RecipeStatus.toTry
    ∧ (createFn [] tacosForm "id9" 7).1.createdAt
        = (createFn [] tacosForm "id9" 7).1.updatedAt
    ∧ (createFn [] tacosForm "id9" 7).1.ingredients
        = splitTrimNonEmpty ',' tacosForm.ingredients
    ∧ (createFn [] tacosForm "id9" 7).1.metadata.tags
        = splitTrimNonEmpty ',' tacosForm.tags
    ∧ (createFn [] tacosForm "id9" 7).1.instructions
        = splitTrimNonEmpty '\n' tacosForm.instructions
    ∧ (createFn [] tacosForm "id9" 7).2 = [] ++ [(createFn [] tacosForm "id9" 7).1] :=
  create_spec [] tacosForm "id9" 7 (by decide) (by decide) (by decide)

/-- Claim C2: with every criterion absent, `search` returns all recipes in
their original order, for any non-empty collection; and for every filter
specification the result is an order-preserving sublist of the (unmutated)
input. -/
theorem search_empty_and_order (recipes : List Recipe) (f : SearchFilters)
    (hne : recipes ≠ []) :
    searchFn recipes { query := "", cuisineType := none, status := none, maxPrepTime := none }
      = recipes
    ∧ List.Sublist (searchFn recipes f) recipes := by
  constructor
  · rfl
  · unfold searchFn
    exact (ifFilterSublist _ _ _).trans ((ifFilterSublist _ _ _).trans
      ((ifFilterSublist _ _ _).trans (ifFilterSublist _ _ _)))

/-- Claim C2 witness: instantiated on the seed data with a query filter. -/
theorem search_empty_and_order_witness :
    searchFn [sampleCarbonara, sampleTeriyaki]
        { query := "", cuisineType := none, status := none, maxPrepTime := none }
      = [sampleCarbonara, sampleTeriyaki]
    ∧ List.Sublist
        (searchFn [sampleCarbonara, sampleTeriyaki]
          { query := "pasta", cuisineType := none, status := none, maxPrepTime := none })
        [sampleCarbonara, sampleTeriyaki] :=
  search_empty_and_order [sampleCarbonara, sampleTeriyaki]
    { query := "pasta", cuisineType := none, status := none, maxPrepTime := none }
    (by decide)

/-- Claim C3 counterexample: with ingredient text "chicken" and no
preferences, exactly one candidate survives filtering, and the generator
returns one candidate, not `min 4 (max 2 1) = 2` as the claim requires. -/
theorem smart_result_size_cex :
    0 < (smartFiltered "chicken" "").length
    ∧ (generateSmartSuggestions "chicken" "").length
        ≠ min 4 (max 2 (smartFiltered "chicken" "").length) := by
  decide

/-- Claim C3 (amended): the local generator returns exactly
`min n (min 4 (max 2 n))` candidates where `n` is the filtered count —
that is, `min 4 n` for `n > 0` (the `max 2` lower bound cannot lengthen a
short list), and the empty sequence exactly when the filtered set is
empty. -/
theorem smart_result_size (ingredients preferences : String) :
    (generateSmartSuggestions ingredients preferences).length
      = min (min 4 (max 2 (smartFiltered ingredients preferences).length))
          (smartFiltered ingredients preferences).length
    ∧ (generateSmartSuggestions ingredients preferences = []
        ↔ smartFiltered ingredients preferences = []) := by
  unfold generateSmartSuggestions
  constructor
  · exact List.length_take _ _
  · rw [List.take_eq_nil_iff]
    constructor
    · rintro (h | h)
      · omega
      · exact h
    · intro h
      exact Or.inr h

/-- Claim C3 witness: evaluating the amended sizing rule on inputs that
trigger one candidate, several candidates, and none. -/
theorem smart_result_size_witness :
    (generateSmartSuggestions "chicken" "").length
      = min (min 4 (max 2 (smartFiltered "chicken" "").length))
          (smartFiltered "chicken" "").length
    ∧ generateSmartSuggestions "zzz" "" = [] :=
  ⟨(smart_result_size "chicken" "").1,
   (smart_result_size "zzz" "").2.mpr (by decide)⟩

/-- Claim C4: whenever the ingredient text triggers at least three template
candidates and the preference text contains "vegetarian", "easy", and
"quick", every candidate the local generator returns has difficulty Easy,
preparation time at most 30, and is tagged vegetarian or free of
chicken/meat/fish ingredient tokens. -/
theorem smart_pref_narrow (ingredients preferences : String) (s : SuggestedRecipe)
    (h3 : 3 ≤ (smartTriggered ingredients).length)
    (hveg : strIncludes (lowerStr preferences) "vegetarian" = true)
    (heasy : strIncludes (lowerStr preferences) "easy" = true)
    (hquick : strIncludes (lowerStr preferences) "quick" = true)
    (hs : s ∈ generateSmartSuggestions ingredients preferences) :
    s.difficulty = Difficulty.Easy ∧ s.preparationTime ≤ 30 ∧ vegFriendly s = true := by
  have hmem : s ∈ smartFiltered ingredients preferences :=
    List.mem_of_mem_take hs
  simp only [smartFiltered, hveg, heasy, hquick, Bool.true_or, if_true] at hmem
  have h1 := List.mem_filter.mp hmem
  have h2 := List.mem_filter.mp h1.1
  have h3f := List.mem_filter.mp h2.1
  refine ⟨?_, ?_, h3f.2⟩
  · have := h1.2
    simpa using this
  · have := h2.2
    simpa using this

/-- Claim C4 witness: five templates trigger for the listed ingredients and
the garden pasta candidate is returned under the stated preferences. -/
theorem smart_pref_narrow_witness :
    freshGardenPasta.difficulty = Difficulty.Easy
    ∧ freshGardenPasta.preparationTime ≤ 30
    ∧ vegFriendly freshGardenPasta = true :=
  smart_pref_narrow "chicken, pasta, rice, tomato, egg" "vegetarian, easy, quick"
    freshGardenPasta (by decide) (by decide) (by decide) (by decide) (by decide)

/-- Claim C5 counterexample: after taking a `getAll` snapshot (a shallow
copy of the reference array), `updateStatus` mutates the shared record
object in place, and the change is observable through the earlier
snapshot. -/
theorem getAll_shallow_copy_cex :
    derefView (updateStatusH heapSample "1" RecipeStatus.made 99).heap (getAllH heapSample)
      ≠ derefView heapSample.heap (getAllH heapSample) := by
  decide

/-- Claim C5 (amended): `list` returns a copy of the store array, so
`create`, `update`, and `delete` never change the record values observable
through a previously obtained `list` result; `updateStatus`, however,
mutates the record object in place and its effect is observable through
such a result, because the copy is shallow. -/
theorem getAll_shallow_copy (s : HeapStore) (fd : RecipeFormData)
    (id freshId : String) (now : Nat)
    (hwf : ∀ a ∈ s.arr, a < s.heap.length) :
    derefView (createH s fd freshId now).heap (getAllH s) = derefView s.heap (getAllH s)
    ∧ derefView (updateH s id fd freshId now).heap (getAllH s) = derefView s.heap (getAllH s)
    ∧ derefView (deleteH s id).heap (getAllH s) = derefView s.heap (getAllH s) := by
  refine ⟨?_, ?_, ?_⟩
  · unfold createH derefView getAllH
    exact List.map_congr_left (fun a ha => List.getElem?_append_left (hwf a ha))
  · unfold updateH
    cases hidx : s.arr.findIdx? (idAtRef s.heap id) with
    | none => rfl
    | some idx =>
        unfold derefView getAllH
        exact List.map_congr_left (fun a ha => List.getElem?_append_left (hwf a ha))
  · unfold deleteH
    cases hidx : s.arr.findIdx? (idAtRef s.heap id) with
    | none => rfl
    | some idx => rfl

/-- Claim C5 witness: the amended frame property evaluated on the sample
heap store. -/
theorem getAll_shallow_copy_witness :
    derefView (createH heapSample tacosForm "id9" 7).heap (getAllH heapSample)
        = derefView heapSample.heap (getAllH heapSample)
    ∧ derefView (updateH heapSample "1" tacosForm "id9" 7).heap (getAllH heapSample)
        = derefView heapSample.heap (getAllH heapSample)
    ∧ derefView (deleteH heapSample "1").heap (getAllH heapSample)
        = derefView heapSample.heap (getAllH heapSample) :=
  getAll_shallow_copy heapSample tacosForm "1" "id9" 7 (by decide)

/-- Claim C6: for an id present in the store (ids are non-empty by
construction) and any form input, `update` yields a record whose
`createdAt` equals the found record's original `createdAt` and whose
`updatedAt` is at least the original `updatedAt`, provided the clock has
not gone backwards since that record was last written. -/
theorem update_preserves_createdAt (recipes : List Recipe) (id : String)
    (fd : RecipeFormData) (freshId : String) (now : Nat) (r0 : Recipe)
    (hfind : recipes.find? (fun r => r.id == id) = some r0)
    (hid : id ≠ "")
    (hclock : r0.updatedAt ≤ now) :
    ∃ r', (updateFn recipes id fd freshId now).1 = some r'
      ∧ r'.createdAt = r0.createdAt
      ∧ r0.updatedAt ≤ r'.updatedAt := by
  have hb : (id == "") = false := beq_eq_false_iff_ne.mpr hid
  cases hidx : recipes.findIdx? (fun r => r.id == id) with
  | none =>
      exfalso
      rw [List.findIdx?_eq_none_iff] at hidx
      have hmem := List.mem_of_find?_eq_some hfind
      have hp := List.find?_some hfind
      simp [hidx r0 hmem] at hp
  | some idx =>
      refine ⟨convertFormDataToRecipe recipes fd (some id) freshId now, ?_, ?_, ?_⟩
      · simp [updateFn, hidx]
      · simp [convertFormDataToRecipe, hb, hfind]
      · simpa [convertFormDataToRecipe] using hclock

/-- Claim C6 witness: updating the second seed recipe preserves its
creation date and does not decrease its update date. -/
theorem update_preserves_createdAt_witness :
    ∃ r', (updateFn [sampleCarbonara, sampleTeriyaki] "2" tacosForm "id9" 20240130).1 = some r'
      ∧ r'.createdAt = sampleTeriyaki.createdAt
      ∧ sampleTeriyaki.updatedAt ≤ r'.updatedAt :=
  update_preserves_createdAt [sampleCarbonara, sampleTeriyaki] "2" tacosForm "id9" 20240130
    sampleTeriyaki (by decide) (by decide) (by decide)

/-- Claim C7: for a present id, `updateStatus` yields the stored record
with only its status and update timestamp replaced, writes exactly that
record back at its position leaving every other position unchanged, and
for an absent id it fails with the not-found result and leaves the store
unchanged. -/
theorem updateStatus_frame (recipes : List Recipe) (id : String)
    (st : RecipeStatus) (now : Nat) :
    ((∀ r ∈ recipes, r.id ≠ id) →
        updateStatusFn recipes id st now = (none, recipes))
    ∧ (∀ idx r0,
        recipes.findIdx? (fun r => r.id == id) = some idx →
        recipes[idx]? = some r0 →
        (updateStatusFn recipes id st now).1
            = some { r0 with status := st, updatedAt := now }
        ∧ (updateStatusFn recipes id st now).2[idx]?
            = some { r0 with status := st, updatedAt := now }
        ∧ ∀ j, j ≠ idx →
            (updateStatusFn recipes id st now).2[j]? = recipes[j]?) := by
  constructor
  · intro h
    have hn : recipes.findIdx? (fun r => r.id == id) = none :=
      findIdxNoneOfAll _ _ (fun r hr => beq_eq_false_iff_ne.mpr (h r hr))
    simp [updateStatusFn, hn]
  · intro idx r0 hidx hget
    have hlt : idx < recipes.length := (List.getElem?_eq_some.mp hget).1
    refine ⟨?_, ?_, ?_⟩
    · simp [updateStatusFn, hidx, hget]
    · simp [updateStatusFn, hidx, hget, List.getElem?_set, hlt]
    · intro j hj
      simp [updateStatusFn, hidx, hget, List.getElem?_set_ne (Ne.symm hj)]

/-- Claim C7 witness: marking the second seed recipe as favorite changes
only its status and update timestamp and leaves the first recipe alone. -/
theorem updateStatus_frame_witness :
    (updateStatusFn [sampleCarbonara, sampleTeriyaki] "2" RecipeStatus.favorite 50).1
        = some { sampleTeriyaki with status := RecipeStatus.favorite, updatedAt := 50 }
    ∧ (updateStatusFn [sampleCarbonara, sampleTeriyaki] "2" RecipeStatus.favorite 50).2[1]?
        = some { sampleTeriyaki with status := RecipeStatus.favorite, updatedAt := 50 }
    ∧ ∀ j, j ≠ 1 →
        (updateStatusFn [sampleCarbonara, sampleTeriyaki] "2" RecipeStatus.favorite 50).2[j]?
          = [sampleCarbonara, sampleTeriyaki][j]? :=
  (updateStatus_frame [sampleCarbonara, sampleTeriyaki] "2" RecipeStatus.favorite 50).2
    1 sampleTeriyaki (by decide) (by decide)

/-- Claim C8: deleting an id absent from the store fails with the
not-found result and returns the store with the same records in the same
order. -/
theorem delete_absent (recipes : List Recipe) (id : String)
    (h : ∀ r ∈ recipes, r.id ≠ id) :
    deleteFn recipes id = (false, recipes) := by
  have hn : recipes.findIdx? (fun r => r.id == id) = none :=
    findIdxNoneOfAll _ _ (fun r hr => beq_eq_false_iff_ne.mpr (h r hr))
  simp [deleteFn, hn]

/-- Claim C8 witness: deleting an unknown id from the seed store. -/
theorem delete_absent_witness :
    deleteFn [sampleCarbonara, sampleTeriyaki] "3"
      = (false, [sampleCarbonara, sampleTeriyaki]) :=
  delete_absent [sampleCarbonara, sampleTeriyaki] "3" (by decide)

/-- Claim C9: `search` is monotonic — when one filter specification
provides every criterion another provides, with the same values, plus at
least one more, its result is at most as large. -/
theorem search_monotone (recipes : List Recipe) (f1 f2 : SearchFilters)
    (hsame : providedSame f1 f2) (hmore : providesMore f1 f2) :
    (searchFn recipes f2).length ≤ (searchFn recipes f1).length := by
  refine List.Sublist.length_le ?_
  unfold searchFn
  refine ifFilterMono _ _ _ _ (ifFilterMono _ _ _ _ (ifFilterMono _ _ _ _
      (ifFilterMono _ _ _ _ (List.Sublist.refl recipes) ?hq) ?hc) ?hs) ?hm
  case hq =>
    intro h
    have hv := hsame.1 h
    exact ⟨by unfold providedQuery at *; rw [hv]; exact h, by rw [hv]⟩
  case hc =>
    intro h
    have hv := hsame.2.1 h
    exact ⟨by unfold providedCuisine at *; rw [hv]; exact h, by rw [hv]⟩
  case hs =>
    intro h
    have hv := hsame.2.2.1 h
    exact ⟨by unfold providedStatus at *; rw [hv]; exact h, by rw [hv]⟩
  case hm =>
    intro h
    have hv := hsame.2.2.2 h
    exact ⟨by unfold providedMaxPrep at *; rw [hv]; exact h, by rw [hv]⟩

/-- Claim C9 witness: adding a cuisine criterion to a query-only filter
does not enlarge the result on the seed data. -/
theorem search_monotone_witness :
    (searchFn [sampleCarbonara, sampleTeriyaki]
        { query := "italian", cuisineType := some "Italian", status := none,
          maxPrepTime := none }).length
      ≤ (searchFn [sampleCarbonara, sampleTeriyaki]
        { query := "italian", cuisineType := none, status := none,
          maxPrepTime := none }).length :=
  search_monotone [sampleCarbonara, sampleTeriyaki]
    { query := "italian", cuisineType := none, status := none, maxPrepTime := none }
    { query := "italian", cuisineType := some "Italian", status := none,
      maxPrepTime := none }
    (by decide) (by decide)

/-- Claim C10: a successful full update (form input with a name) always
writes status `to-try`, discarding whatever status the record had
before. -/
theorem update_forces_toTry (recipes : List Recipe) (id : String)
    (fd : RecipeFormData) (freshId : String) (now : Nat) (idx : Nat)
    (hname : trimStr fd.name ≠ "")
    (hidx : recipes.findIdx? (fun r => r.id == id) = some idx) :
    ∃ r', (updateFn recipes id fd freshId now).1 = some r'
      ∧ r'.status = RecipeStatus.toTry := by
  refine ⟨convertFormDataToRecipe recipes fd (some id) freshId now, ?_, rfl⟩
  simp [updateFn, hidx]

/-- Claim C10 witness: fully updating the first seed recipe (currently a
favorite) resets its status to `to-try`. -/
theorem update_forces_toTry_witness :
    ∃ r', (updateFn [sampleCarbonara, sampleTeriyaki] "1" tacosForm "id9" 99).1 = some r'
      ∧ r'.status = RecipeStatus.toTry :=
  update_forces_toTry [sampleCarbonara, sampleTeriyaki] "1" tacosForm "id9" 99 0
    (by decide) (by decide)
